import Mathlib

/-
Verification of the e-commerce microservices backend (product catalog,
basket checkout orchestration, order pipeline) against its design spec.

The product service is embedded from `src/product/index_after.js`.  The
DynamoDB store it talks to is modelled by its documented semantics: a
table is a list of schemaless items, each item a list of attribute
name/value pairs, keyed by the partition-key attribute `id`.  UpdateItem
with a SET expression rejects an empty clause list and rejects any
assignment to the key attribute, exactly as DynamoDB does.

The basket service (`src/basket/index.js`) is not part of the corpus, so
its checkout orchestration is modelled from the spec's state machine
(§4.3): validate the userName, load the basket, build the order payload
with `totalPrice` the sum of per-line prices, publish the checkout event,
and delete the basket only after a successful publish.  The external
publish/delete outcomes are explicit oracle inputs, and the run records a
trace of the publish/delete actions it attempts, in order.
-/

namespace ProductService

/-- A DynamoDB attribute value, restricted to the shapes the claims need
(strings and numbers; JS numbers at the granularity used by the code are
modelled as integers). -/
inductive Value where
  | str (s : String)
  | num (n : Int)
  deriving DecidableEq, Repr

/-- A DynamoDB item: a map from attribute names to values, represented as
an association list (as produced by `marshall` from a parsed JSON object). -/
abbrev Item := List (String × Value)

/-- Look up an attribute of an item. -/
def getAttr (it : Item) (f : String) : Option Value :=
  (it.find? (fun p => decide (p.1 = f))).map Prod.snd

/-- Set an attribute of an item (JS property assignment / SET clause). -/
def setAttr (it : Item) (f : String) (v : Value) : Item :=
  (f, v) :: it.filter (fun p => !(decide (p.1 = f)))

/-- A DynamoDB table: the list of stored items. -/
abbrev Table := List Item

/-- The partition-key attribute of an item: the product table is keyed by `id`. -/
def itemKey (it : Item) : Option Value := getAttr it "id"

/-- DynamoDB GetItem: the stored item whose key attribute equals the given id. -/
def getItem (tbl : Table) (pid : String) : Option Item :=
  tbl.find? (fun it => decide (itemKey it = some (Value.str pid)))

/-- DynamoDB PutItem: full replacement of the item with the same key. -/
def putItem (tbl : Table) (it : Item) : Table :=
  it :: tbl.filter (fun it2 => !(decide (itemKey it2 = itemKey it)))

/-- DynamoDB DeleteItem: unconditional removal by key; succeeds when absent. -/
def deleteItem (tbl : Table) (pid : String) : Table :=
  tbl.filter (fun it => !(decide (itemKey it = some (Value.str pid))))

/-- Apply the SET clauses of an update expression to an item, in order. -/
def applyAssignments : Item → List (String × Value) → Item
  | base, [] => base
  | base, a :: as => applyAssignments (setAttr base a.1 a.2) as

/-- DynamoDB UpdateItem with a dynamically built `SET #k0 = :v0, ...`
expression.  DynamoDB rejects an expression with no clauses
(`SET ` alone is a syntax error) and rejects any assignment to the key
attribute (`Cannot update attribute id. This attribute is part of the key`).
Otherwise the named fields are merged into the existing item, or into a
fresh item carrying only the key when absent (upsert). -/
def updateItem (tbl : Table) (pid : String) (assigns : List (String × Value)) :
    Except String Table :=
  if assigns.isEmpty then
    .error "ValidationException: Invalid UpdateExpression: The expression can not be empty"
  else if assigns.any (fun p => decide (p.1 = "id")) then
    .error "ValidationException: Cannot update attribute id. This attribute is part of the key"
  else
    let base := (getItem tbl pid).getD [("id", Value.str pid)]
    .ok (putItem tbl (applyAssignments base assigns))

/-- A lowercase hex digit: `'0'..'9'` for `n < 10`, `'a'..'f'` above. -/
def hexDigit (n : Nat) : Char :=
  if n < 10 then Char.ofNat (48 + n) else Char.ofNat (87 + n)

/-- Big-endian list of `d` hex digits of `n`. -/
def hexChars : Nat → Nat → List Char
  | _, 0 => []
  | n, d + 1 => hexChars (n / 16) d ++ [hexDigit (n % 16)]

/-- The `uuid` library's v4 generator, modelled on 128 random bits `r`:
the canonical `xxxxxxxx-xxxx-4xxx-yxxx-xxxxxxxxxxxx` textual form, with
the version nibble fixed to 4 and the variant nibble in `8..b`. -/
def uuidv4 (r : Nat) : String :=
  ⟨hexChars r 8 ++ '-' :: hexChars (r / 2 ^ 32) 4
    ++ '-' :: '4' :: hexChars (r / 2 ^ 48) 3
    ++ '-' :: hexDigit (8 + (r / 2 ^ 60) % 4) :: hexChars (r / 2 ^ 62) 3
    ++ '-' :: hexChars (r / 2 ^ 74) 12⟩

/-- `getProduct` from `src/product/index_after.js`: GetItem by id, returning
the unmarshalled item when present and the empty object `{}` when absent;
a thrown store error would surface as `.error`, but GetItem succeeds (with
no item) on an absent key. -/
def getProduct (tbl : Table) (productId : String) : Except String Item :=
  .ok ((getItem tbl productId).getD [])

/-- `createProduct` from `src/product/index_after.js`: parse the body
(given here already parsed as an attribute map), overwrite its `id` with a
freshly generated UUID v4 (`productRequest.id = productId`), and PutItem
the result.  Returns the new table and the generated id. -/
def createProduct (tbl : Table) (rand : Nat) (body : Item) :
    Except String (Table × String) :=
  let productId := uuidv4 rand
  .ok (putItem tbl (setAttr body "id" (Value.str productId)), productId)

/-- `deleteProduct` from `src/product/index_after.js`: unconditional
DeleteItem by id. -/
def deleteProduct (tbl : Table) (productId : String) : Except String Table :=
  .ok (deleteItem tbl productId)

/-- The dynamically generated update expression of `updateProduct`:
`SET #key0 = :value0, #key1 = :value1, ...` over the body's keys. -/
def updateExpression (objKeys : List String) : String :=
  "SET " ++ String.intercalate ", "
    ((List.range objKeys.length).map
      (fun i => "#key" ++ toString i ++ " = :value" ++ toString i))

/-- `updateProduct` from `src/product/index_after.js`: UpdateItem on the
path id with one SET clause per key of the parsed request body, each clause
assigning that key's value (via ExpressionAttributeNames/Values). -/
def updateProduct (tbl : Table) (productId : String) (body : Item) :
    Except String Table :=
  updateItem tbl productId body

/-- The table as it stands after a call of `updateProduct`: unchanged when
the store call threw, the returned table when it succeeded. -/
def updateProductTable (tbl : Table) (productId : String) (body : Item) : Table :=
  match updateProduct tbl productId body with
  | .ok t => t
  | .error _ => tbl

/-- Substring containment on character lists, as DynamoDB `contains`
evaluates it on string attributes. -/
def hasSubstr (sub : List Char) : List Char → Bool
  | [] => sub.isEmpty
  | c :: rest => sub.isPrefixOf (c :: rest) || hasSubstr sub rest

/-- Does a stored attribute satisfy DynamoDB `contains (category, :category)`?
True exactly when the attribute exists, is a string, and contains the
operand as a substring. -/
def attrContains (v : Option Value) (sub : String) : Bool :=
  match v with
  | some (Value.str s) => hasSubstr sub.data s.data
  | _ => false

/-- `getProductsByCategory` from `src/product/index_after.js`: Query with
`KeyConditionExpression: "id = :productId"` and
`FilterExpression: "contains (category, :category)"` — key equality first,
then the substring filter on the surviving items. -/
def getProductsByCategory (tbl : Table) (productId category : String) : List Item :=
  ((tbl.filter (fun it => decide (itemKey it = some (Value.str productId)))).filter
    (fun it => attrContains (getAttr it "category") category))

end ProductService

namespace BasketService

/-- Modelled from the spec: a basket line item (§3 Basket) — the
per-product snapshot `{productId, productName, quantity, price, ...}`
carried in a basket; the price snapshot is the integer-granularity model
of the JS number. -/
structure BasketItem where
  productId : String
  productName : String
  quantity : Nat
  price : Int
  deriving DecidableEq, Repr

/-- Modelled from the spec: a Basket record (§3) — keyed by `userName`,
with an item list that may also be null (`none`) or empty, the two shapes
§4.3 makes checkout reject. -/
structure Basket where
  userName : String
  items : Option (List BasketItem)
  deriving DecidableEq, Repr

/-- Modelled from the spec: a checkout request (§6) — `userName` plus the
buyer/payment fields merged into the order payload. -/
structure CheckoutRequest where
  userName : String
  firstName : String
  lastName : String
  email : String
  address : String
  paymentMethod : String
  deriving DecidableEq, Repr

/-- Modelled from the spec: the CheckoutEvent wire payload (§3) —
`{userName, firstName, lastName, email, address, paymentMethod,
totalPrice, items}`. -/
structure OrderPayload where
  userName : String
  firstName : String
  lastName : String
  email : String
  address : String
  paymentMethod : String
  totalPrice : Int
  items : List BasketItem
  deriving DecidableEq, Repr

/-- Modelled from the spec: the basket table — at most one basket per
userName (§3 invariant), full-overwrite semantics. -/
abbrev BasketMap := List Basket

/-- Modelled from the spec: `BasketStore.get(userName)` — point lookup. -/
def getBasket (m : BasketMap) (userName : String) : Option Basket :=
  m.find? (fun b => decide (b.userName = userName))

/-- Modelled from the spec: `BasketStore.delete(userName)` — idempotent
removal. -/
def deleteBasket (m : BasketMap) (userName : String) : BasketMap :=
  m.filter (fun b => !(decide (b.userName = userName)))

/-- Modelled from the spec: §4.3 `BASKET_LOADED → PAYLOAD_BUILT` —
`totalPrice` is the sum of each item's `price` field, once per line,
regardless of that line's `quantity`. -/
def totalOfItems (items : List BasketItem) : Int :=
  (items.map (fun it => it.price)).sum

/-- Modelled from the spec: `prepareOrderPayload` — rejects a null or
empty item list, otherwise merges the basket items and the
checkout-request fields into one payload keyed by userName, with
`totalPrice` the per-line price sum. -/
def prepareOrderPayload (req : CheckoutRequest) (basket : Basket) :
    Option OrderPayload :=
  match basket.items with
  | none => none
  | some [] => none
  | some items =>
    some { userName := req.userName, firstName := req.firstName,
           lastName := req.lastName, email := req.email,
           address := req.address, paymentMethod := req.paymentMethod,
           totalPrice := totalOfItems items, items := items }

/-- Modelled from the spec: the externally observable side-effect calls a
checkout run makes, in order: an event-publish attempt (with its outcome)
and a basket-delete attempt (with its outcome). -/
inductive CheckoutAction where
  | publishEvent (p : OrderPayload) (ok : Bool)
  | deleteBasketAttempt (userName : String) (ok : Bool)
  deriving DecidableEq, Repr

/-- Modelled from the spec: the result reported to the caller (§4.3, §7):
a validation error, the empty/absent-basket business error, a publish
dependency failure, or success — the latter carrying the soft warning of
the publish-succeeded-but-delete-failed case. -/
inductive CheckoutResult where
  | validationError
  | emptyBasketError
  | publishError
  | ok (basketDeleteWarning : Bool)
  deriving DecidableEq, Repr

/-- Modelled from the spec: the outcomes of the two external dependency
calls, as oracle inputs (publish to the event bus, delete in the store). -/
structure CheckoutEnv where
  publishOk : Bool
  deleteOk : Bool
  deriving DecidableEq, Repr

/-- Modelled from the spec: `checkoutBasket` — the §4.3 state machine
`RECEIVED → VALIDATED → BASKET_LOADED → PAYLOAD_BUILT → EVENT_PUBLISHED →
BASKET_CLEARED`.  Fails without side effects before the publish; deletes
the basket only after a successful publish; a delete failure after a
successful publish is a soft warning.  Returns the reported result, the
basket table afterwards, and the trace of attempted side effects. -/
def checkoutBasket (env : CheckoutEnv) (m : BasketMap) (req : CheckoutRequest) :
    CheckoutResult × BasketMap × List CheckoutAction :=
  if req.userName = "" then (.validationError, m, [])
  else
    match getBasket m req.userName with
    | none => (.emptyBasketError, m, [])
    | some basket =>
      match prepareOrderPayload req basket with
      | none => (.emptyBasketError, m, [])
      | some payload =>
        if env.publishOk then
          if env.deleteOk then
            (.ok false, deleteBasket m req.userName,
              [.publishEvent payload true, .deleteBasketAttempt req.userName true])
          else
            (.ok true, m,
              [.publishEvent payload true, .deleteBasketAttempt req.userName false])
        else
          (.publishError, m, [.publishEvent payload false])

end BasketService

namespace ProductService

theorem filter_idem (p : α → Bool) (l : List α) :
    (l.filter p).filter p = l.filter p := by
  induction l with
  | nil => rfl
  | cons a l ih => cases h : p a <;> simp [List.filter_cons, h, ih]

theorem find?_filter_ne (l : List (String × Value)) (f g : String) (h : g ≠ f) :
    (l.filter (fun p => !(decide (p.1 = f)))).find? (fun p => decide (p.1 = g))
      = l.find? (fun p => decide (p.1 = g)) := by
  induction l with
  | nil => rfl
  | cons a l ih =>
    have hfg : ¬(f = g) := fun e => h e.symm
    by_cases hf : a.1 = f
    · have hg : ¬(a.1 = g) := by rw [hf]; exact hfg
      simp [List.filter_cons, hf, List.find?, hg, hfg, ih]
    · by_cases hg : a.1 = g <;> simp [List.filter_cons, hf, List.find?, hg, h, hfg, ih]

theorem getAttr_setAttr_self (it : Item) (f : String) (v : Value) :
    getAttr (setAttr it f v) f = some v := by
  simp [getAttr, setAttr, List.find?]

theorem getAttr_setAttr_ne (it : Item) {f g : String} (v : Value) (h : g ≠ f) :
    getAttr (setAttr it f v) g = getAttr it g := by
  have hfg : ¬(f = g) := fun e => h e.symm
  simp [getAttr, setAttr, List.find?, hfg, find?_filter_ne it f g h]

theorem getAttr_applyAssignments_of_not_mem (assigns : List (String × Value))
    (base : Item) (f : String) (h : f ∉ assigns.map Prod.fst) :
    getAttr (applyAssignments base assigns) f = getAttr base f := by
  induction assigns generalizing base with
  | nil => rfl
  | cons a as ih =>
    simp only [List.map_cons, List.mem_cons, not_or] at h
    rw [applyAssignments, ih _ h.2, getAttr_setAttr_ne _ _ h.1]

theorem itemKey_of_getItem_eq_some {tbl : Table} {pid : String} {it : Item}
    (h : getItem tbl pid = some it) : itemKey it = some (Value.str pid) := by
  have := List.find?_some h
  simpa using this

theorem getItem_putItem_self {tbl : Table} {it : Item} {pid : String}
    (h : itemKey it = some (Value.str pid)) :
    getItem (putItem tbl it) pid = some it := by
  simp [getItem, putItem, List.find?, h]

theorem mem_putItem {tbl : Table} {it it' : Item}
    (h : it' ∈ putItem tbl it) : it' = it ∨ it' ∈ tbl := by
  rcases List.mem_cons.mp h with h' | h'
  · exact Or.inl h'
  · exact Or.inr (List.mem_filter.mp h').1

theorem length_hexChars (n d : Nat) : (hexChars n d).length = d := by
  induction d generalizing n with
  | zero => rfl
  | succ d ih => simp [hexChars, ih]

theorem length_uuidv4 (r : Nat) : (uuidv4 r).length = 36 := by
  simp [uuidv4, String.length, length_hexChars]

theorem any_eq_false_of_id_not_mem {body : Item}
    (h : "id" ∉ body.map Prod.fst) :
    body.any (fun p => decide (p.1 = "id")) = false := by
  cases hA : body.any (fun p => decide (p.1 = "id")) with
  | false => rfl
  | true =>
    obtain ⟨p, hp, hpid⟩ := List.any_eq_true.mp hA
    exact absurd (List.mem_map.mpr ⟨p, hp, of_decide_eq_true hpid⟩) h

/-- Claim C4: a supplied `id` field in a product-update request body never
changes the stored record's id — DynamoDB rejects the update outright
(`updateProduct` reports an error), and in every case each item of the
effective table after the call either carries id equal to the path id or
is an untouched original item. -/
theorem claim_C4 (tbl : Table) (pid : String) (body : Item) :
    ("id" ∈ body.map Prod.fst → ∃ e, updateProduct tbl pid body = .error e)
    ∧ ∀ it, it ∈ updateProductTable tbl pid body →
        getAttr it "id" = some (Value.str pid) ∨ it ∈ tbl := by
  constructor
  · intro hmem
    cases body with
    | nil => simp at hmem
    | cons a as =>
      obtain ⟨p, hp, hpid⟩ := List.mem_map.mp hmem
      have hA : (a :: as).any (fun p => decide (p.1 = "id")) = true :=
        List.any_eq_true.mpr ⟨p, hp, decide_eq_true hpid⟩
      exact ⟨"ValidationException: Cannot update attribute id. This attribute is part of the key",
        by rw [updateProduct, updateItem]; simp [hA]⟩
  · intro it hit
    cases hE : body.isEmpty with
    | true =>
      rw [updateProductTable, updateProduct, updateItem] at hit
      simp only [hE, if_true] at hit
      exact Or.inr hit
    | false =>
      cases hA : body.any (fun p => decide (p.1 = "id")) with
      | true =>
        rw [updateProductTable, updateProduct, updateItem] at hit
        simp only [hE, hA, Bool.false_eq_true, if_false, if_true] at hit
        exact Or.inr hit
      | false =>
        have hid : "id" ∉ body.map Prod.fst := by
          intro hmem
          obtain ⟨p, hp, hpid⟩ := List.mem_map.mp hmem
          have : body.any (fun p => decide (p.1 = "id")) = true :=
            List.any_eq_true.mpr ⟨p, hp, decide_eq_true hpid⟩
          rw [this] at hA
          exact Bool.true_eq_false.mp hA
        rw [updateProductTable, updateProduct, updateItem] at hit
        simp only [hE, hA, Bool.false_eq_true, if_false] at hit
        rcases mem_putItem hit with h' | h'
        · left
          rw [h', getAttr_applyAssignments_of_not_mem _ _ _ hid]
          cases hG : getItem tbl pid with
          | none => simp [hG, getAttr, List.find?]
          | some it0 =>
            have := itemKey_of_getItem_eq_some hG
            simpa [hG, itemKey] using this
        · exact Or.inr h'

/-- Claim C4 witness: updating product `X` with a body that smuggles in an
`id` entry makes the store call fail, leaving the record untouched. -/
theorem claim_C4_witness :
    ("id" ∈ ([("id", Value.str "evil"), ("price", Value.num 1)] : Item).map Prod.fst)
    ∧ ∃ e, updateProduct [[("id", Value.str "X"), ("price", Value.num 5)]] "X"
        [("id", Value.str "evil"), ("price", Value.num 1)] = .error e :=
  ⟨by decide,
   (claim_C4 [[("id", Value.str "X"), ("price", Value.num 5)]] "X"
     [("id", Value.str "evil"), ("price", Value.num 1)]).1 (by decide)⟩

/-- Claim C5: a partial product update with a nonempty field map that does
not name `id` succeeds, merges only the named fields — every field not
named keeps its previous value — and creates the record when absent
(upsert). -/
theorem claim_C5 (tbl : Table) (pid : String) (body : Item)
    (h1 : body ≠ []) (h2 : "id" ∉ body.map Prod.fst) :
    ∃ t, updateProduct tbl pid body = .ok t
      ∧ (getItem tbl pid = none → (getItem t pid).isSome)
      ∧ ∀ it, getItem tbl pid = some it →
          ∃ it', getItem t pid = some it'
            ∧ ∀ f, f ∉ body.map Prod.fst → getAttr it' f = getAttr it f := by
  have hE : body.isEmpty = false := by
    cases body with
    | nil => exact absurd rfl h1
    | cons a as => rfl
  have hA := any_eq_false_of_id_not_mem h2
  refine ⟨putItem tbl (applyAssignments ((getItem tbl pid).getD [("id", Value.str pid)]) body),
    by rw [updateProduct, updateItem]; simp only [hE, hA, Bool.false_eq_true, if_false], ?_, ?_⟩
  · intro hG
    rw [hG, Option.getD_none]
    have hkey : itemKey (applyAssignments [("id", Value.str pid)] body) = some (Value.str pid) := by
      rw [itemKey, getAttr_applyAssignments_of_not_mem _ _ _ h2]
      simp [getAttr, List.find?]
    rw [getItem_putItem_self hkey]
    rfl
  · intro it hG
    rw [hG, Option.getD_some]
    have hkey : itemKey (applyAssignments it body) = some (Value.str pid) := by
      rw [itemKey, getAttr_applyAssignments_of_not_mem _ _ _ h2]
      exact itemKey_of_getItem_eq_some hG
    exact ⟨applyAssignments it body, getItem_putItem_self hkey,
      fun f hf => getAttr_applyAssignments_of_not_mem _ _ _ hf⟩

/-- Claim C5 witness: updating the stored Widget record with `{price: 42}`
succeeds and leaves its `name` field (and every other unnamed field)
unchanged. -/
theorem claim_C5_witness :
    ([("price", Value.num 42)] : Item) ≠ []
    ∧ "id" ∉ ([("price", Value.num 42)] : Item).map Prod.fst
    ∧ ∃ t, updateProduct
        [[("id", Value.str "X"), ("name", Value.str "Widget"), ("price", Value.num 5)]]
        "X" [("price", Value.num 42)] = .ok t
      ∧ (getItem [[("id", Value.str "X"), ("name", Value.str "Widget"),
            ("price", Value.num 5)]] "X" = none → (getItem t "X").isSome)
      ∧ ∀ it, getItem [[("id", Value.str "X"), ("name", Value.str "Widget"),
            ("price", Value.num 5)]] "X" = some it →
          ∃ it', getItem t "X" = some it'
            ∧ ∀ f, f ∉ ([("price", Value.num 42)] : Item).map Prod.fst →
                getAttr it' f = getAttr it f :=
  ⟨by decide, by decide,
   claim_C5 [[("id", Value.str "X"), ("name", Value.str "Widget"), ("price", Value.num 5)]]
     "X" [("price", Value.num 42)] (by decide) (by decide)⟩

/-- Claim C6: product deletion is idempotent — both the first and the
second delete of the same id report success, deleting an absent id is not
an error, and the table after two deletes equals the table after one. -/
theorem claim_C6 (tbl : Table) (pid : String) :
    deleteProduct tbl pid = .ok (deleteItem tbl pid)
    ∧ deleteProduct (deleteItem tbl pid) pid = .ok (deleteItem tbl pid) := by
  refine ⟨rfl, ?_⟩
  rw [deleteProduct, deleteItem, deleteItem, filter_idem]

/-- Claim C7: `getProduct` on an absent id does not fail — it returns the
explicit empty object — while on a present id it returns the stored
record; it never surfaces an error. -/
theorem claim_C7 (tbl : Table) (pid : String) :
    (∀ e, getProduct tbl pid ≠ .error e)
    ∧ (getItem tbl pid = none → getProduct tbl pid = .ok [])
    ∧ ∀ it, getItem tbl pid = some it → getProduct tbl pid = .ok it := by
  refine ⟨fun e h => by simp [getProduct] at h,
    fun h => by simp [getProduct, h],
    fun it h => by simp [getProduct, h]⟩

/-- Claim C7 witness: with one Widget stored under `p1`, `getProduct`
returns it for `p1` and returns the empty object (not an error) for the
absent id `zzz`. -/
theorem claim_C7_witness :
    getProduct [[("id", Value.str "p1"), ("name", Value.str "Widget")]] "p1"
      = .ok [("id", Value.str "p1"), ("name", Value.str "Widget")]
    ∧ getProduct [[("id", Value.str "p1"), ("name", Value.str "Widget")]] "zzz"
      = .ok [] :=
  ⟨(claim_C7 [[("id", Value.str "p1"), ("name", Value.str "Widget")]] "p1").2.2
      [("id", Value.str "p1"), ("name", Value.str "Widget")] (by decide),
   (claim_C7 [[("id", Value.str "p1"), ("name", Value.str "Widget")]] "zzz").2.1
      (by decide)⟩

/-- Claim C8: `getProductsByCategory` returns exactly the stored items
whose key attribute equals the given id and whose `category` attribute
contains the given substring — key equality applied first, then the
substring filter. -/
theorem claim_C8 (tbl : Table) (pid category : String) (it : Item) :
    it ∈ getProductsByCategory tbl pid category ↔
      it ∈ tbl ∧ itemKey it = some (Value.str pid)
        ∧ attrContains (getAttr it "category") category = true := by
  simp only [getProductsByCategory, List.mem_filter, decide_eq_true_eq]
  constructor
  · rintro ⟨⟨h1, h2⟩, h3⟩
    exact ⟨h1, h2, h3⟩
  · rintro ⟨h1, h2, h3⟩
    exact ⟨⟨h1, h2⟩, h3⟩

/-- Claim C9: `createProduct` persists the submitted fields under a
freshly generated 36-character (hence non-empty) UUID v4 id, discarding
any id supplied in the input, and a subsequent get of the generated id
returns exactly the submitted fields plus that id. -/
theorem claim_C9 (tbl : Table) (rand : Nat) (body : Item) :
    ∃ t, createProduct tbl rand body = .ok (t, uuidv4 rand)
      ∧ (uuidv4 rand).length = 36
      ∧ uuidv4 rand ≠ ""
      ∧ ∃ it, getItem t (uuidv4 rand) = some it
          ∧ getAttr it "id" = some (Value.str (uuidv4 rand))
          ∧ ∀ f, f ≠ "id" → getAttr it f = getAttr body f := by
  refine ⟨putItem tbl (setAttr body "id" (Value.str (uuidv4 rand))), rfl,
    length_uuidv4 rand, ?_, setAttr body "id" (Value.str (uuidv4 rand)), ?_, ?_, ?_⟩
  · intro h
    have := length_uuidv4 rand
    rw [h] at this
    simp [String.length] at this
  · exact getItem_putItem_self (getAttr_setAttr_self body "id" _)
  · exact getAttr_setAttr_self body "id" _
  · exact fun f hf => getAttr_setAttr_ne body _ hf

/-- Claim C9 witness: creating `{name:"Widget", id:"hacker"}` with random
seed 0 stores it under the generated UUID, with the supplied id discarded
and the submitted fields retrievable via get of the generated id. -/
theorem claim_C9_witness :
    ∃ t, createProduct [] 0 [("name", Value.str "Widget"), ("id", Value.str "hacker")]
        = .ok (t, uuidv4 0)
      ∧ (uuidv4 0).length = 36
      ∧ uuidv4 0 ≠ ""
      ∧ ∃ it, getItem t (uuidv4 0) = some it
          ∧ getAttr it "id" = some (Value.str (uuidv4 0))
          ∧ ∀ f, f ≠ "id" → getAttr it f =
              getAttr [("name", Value.str "Widget"), ("id", Value.str "hacker")] f :=
  claim_C9 [] 0 [("name", Value.str "Widget"), ("id", Value.str "hacker")]

/-- Claim C10: a product update with an empty JSON object body is not a
no-op — the generated update expression has no assignment clauses
(`SET ` alone), the store call errors, and the effective table is
unchanged. -/
theorem claim_C10 (tbl : Table) (pid : String) :
    updateProduct tbl pid []
      = .error "ValidationException: Invalid UpdateExpression: The expression can not be empty"
    ∧ updateExpression (([] : Item).map Prod.fst) = "SET "
    ∧ updateProductTable tbl pid [] = tbl := by
  refine ⟨rfl, by decide, rfl⟩

end ProductService

namespace BasketService

theorem checkout_trace_shape (env : CheckoutEnv) (m : BasketMap) (req : CheckoutRequest) :
    (checkoutBasket env m req).2.2 = []
    ∨ (∃ p, (checkoutBasket env m req).2.2 = [CheckoutAction.publishEvent p false])
    ∨ (∃ p d, (checkoutBasket env m req).2.2 =
        [CheckoutAction.publishEvent p true,
         CheckoutAction.deleteBasketAttempt req.userName d]) := by
  by_cases hu : req.userName = ""
  · exact Or.inl (by simp [checkoutBasket, hu])
  · cases hb : getBasket m req.userName with
    | none => exact Or.inl (by simp [checkoutBasket, if_neg hu, hb])
    | some b =>
      cases hp : prepareOrderPayload req b with
      | none => exact Or.inl (by simp [checkoutBasket, if_neg hu, hb, hp])
      | some payload =>
        cases hpub : env.publishOk with
        | false =>
          exact Or.inr (Or.inl ⟨payload, by simp [checkoutBasket, if_neg hu, hb, hp, hpub]⟩)
        | true =>
          cases hdel : env.deleteOk with
          | false =>
            exact Or.inr (Or.inr ⟨payload, false,
              by simp [checkoutBasket, if_neg hu, hb, hp, hpub, hdel]⟩)
          | true =>
            exact Or.inr (Or.inr ⟨payload, true,
              by simp [checkoutBasket, if_neg hu, hb, hp, hpub, hdel]⟩)

theorem checkout_publish_fail (env : CheckoutEnv) (m : BasketMap) (req : CheckoutRequest)
    (h : env.publishOk = false) :
    (checkoutBasket env m req).2.1 = m
    ∧ ∀ w, (checkoutBasket env m req).1 ≠ CheckoutResult.ok w := by
  by_cases hu : req.userName = ""
  · exact ⟨by simp [checkoutBasket, hu], fun w => by simp [checkoutBasket, hu]⟩
  · cases hb : getBasket m req.userName with
    | none =>
      exact ⟨by simp [checkoutBasket, if_neg hu, hb],
        fun w => by simp [checkoutBasket, if_neg hu, hb]⟩
    | some b =>
      cases hp : prepareOrderPayload req b with
      | none =>
        exact ⟨by simp [checkoutBasket, if_neg hu, hb, hp],
          fun w => by simp [checkoutBasket, if_neg hu, hb, hp]⟩
      | some payload =>
        exact ⟨by simp [checkoutBasket, if_neg hu, hb, hp, h],
          fun w => by simp [checkoutBasket, if_neg hu, hb, hp, h]⟩

/-- Claim C1: every checkout event publish attempt carries a payload whose
`totalPrice` is the sum of the basket's per-line `price` fields, taken
once per line with the line's `quantity` playing no role, and whose
`items` are the basket's items verbatim. -/
theorem claim_C1 (env : CheckoutEnv) (m : BasketMap) (req : CheckoutRequest)
    (b : Basket) (its : List BasketItem)
    (hb : getBasket m req.userName = some b) (hits : b.items = some its) :
    ∀ p ok, CheckoutAction.publishEvent p ok ∈ (checkoutBasket env m req).2.2 →
      p.totalPrice = (its.map (fun it => it.price)).sum ∧ p.items = its := by
  intro p ok hp
  by_cases hu : req.userName = ""
  · simp [checkoutBasket, hu] at hp
  · cases its with
    | nil =>
      have hpp : prepareOrderPayload req b = none := by
        rw [prepareOrderPayload, hits]
      simp [checkoutBasket, if_neg hu, hb, hpp] at hp
    | cons a as =>
      have hpp : prepareOrderPayload req b = some
          { userName := req.userName, firstName := req.firstName,
            lastName := req.lastName, email := req.email,
            address := req.address, paymentMethod := req.paymentMethod,
            totalPrice := totalOfItems (a :: as), items := a :: as } := by
        rw [prepareOrderPayload, hits]
      cases hpub : env.publishOk with
      | false =>
        simp [checkoutBasket, if_neg hu, hb, hpp, hpub] at hp
        rw [hp.1]
        exact ⟨rfl, rfl⟩
      | true =>
        cases hdel : env.deleteOk with
        | false =>
          simp [checkoutBasket, if_neg hu, hb, hpp, hpub, hdel] at hp
          rw [hp.1]
          exact ⟨rfl, rfl⟩
        | true =>
          simp [checkoutBasket, if_neg hu, hb, hpp, hpub, hdel] at hp
          rw [hp.1]
          exact ⟨rfl, rfl⟩

/-- Claim C1 witness (Scenario B): alice's basket holds lines of price 10
(quantity 3) and price 20 (quantity 5); the published payload totals 30 —
the quantities never enter — and carries both items. -/
theorem claim_C1_witness :
    ((⟨"alice", "A", "", "", "", "", 30,
        [⟨"p1", "", 3, 10⟩, ⟨"p2", "", 5, 20⟩]⟩ : OrderPayload).totalPrice
      = (([⟨"p1", "", 3, 10⟩, ⟨"p2", "", 5, 20⟩] : List BasketItem).map
          (fun it => it.price)).sum
    ∧ (⟨"alice", "A", "", "", "", "", 30,
        [⟨"p1", "", 3, 10⟩, ⟨"p2", "", 5, 20⟩]⟩ : OrderPayload).items
      = [⟨"p1", "", 3, 10⟩, ⟨"p2", "", 5, 20⟩])
    ∧ (([⟨"p1", "", 3, 10⟩, ⟨"p2", "", 5, 20⟩] : List BasketItem).map
        (fun it => it.price)).sum = 30
    ∧ ([⟨"p1", "", 3, 10⟩, ⟨"p2", "", 5, 20⟩] : List BasketItem).length = 2 :=
  ⟨claim_C1 ⟨true, true⟩
      [⟨"alice", some [⟨"p1", "", 3, 10⟩, ⟨"p2", "", 5, 20⟩]⟩]
      ⟨"alice", "A", "", "", "", ""⟩
      ⟨"alice", some [⟨"p1", "", 3, 10⟩, ⟨"p2", "", 5, 20⟩]⟩
      [⟨"p1", "", 3, 10⟩, ⟨"p2", "", 5, 20⟩]
      (by decide) (by decide)
      ⟨"alice", "A", "", "", "", "", 30, [⟨"p1", "", 3, 10⟩, ⟨"p2", "", 5, 20⟩]⟩
      true (by decide),
    by decide, by decide⟩

/-- Claim C2: in every checkout run, a basket-delete attempt only ever
appears in the side-effect trace strictly after a successful event
publish; and whenever the publish dependency fails, the basket table is
unchanged, the user's basket is retrievable with identical contents, and
the reported result is not a success. -/
theorem claim_C2 (env : CheckoutEnv) (m : BasketMap) (req : CheckoutRequest) :
    (∀ (i : Nat) (u : String) (ok : Bool),
        ((checkoutBasket env m req).2.2)[i]? = some (CheckoutAction.deleteBasketAttempt u ok) →
        ∃ (j : Nat) (p : OrderPayload), j < i ∧
          ((checkoutBasket env m req).2.2)[j]? = some (CheckoutAction.publishEvent p true))
    ∧ (env.publishOk = false →
        (checkoutBasket env m req).2.1 = m
        ∧ getBasket (checkoutBasket env m req).2.1 req.userName = getBasket m req.userName
        ∧ ∀ w, (checkoutBasket env m req).1 ≠ CheckoutResult.ok w) := by
  constructor
  · intro i u ok h
    rcases checkout_trace_shape env m req with hs | ⟨p, hs⟩ | ⟨p, d, hs⟩
    · rw [hs] at h
      simp at h
    · rw [hs] at h
      match i with
      | 0 => simp at h
      | n + 1 => simp at h
    · rw [hs] at h
      match i with
      | 0 => simp at h
      | 1 => exact ⟨0, p, Nat.zero_lt_one, by rw [hs]; rfl⟩
      | n + 2 => simp at h
  · intro hpub
    obtain ⟨h1, h2⟩ := checkout_publish_fail env m req hpub
    exact ⟨h1, by rw [h1], h2⟩

/-- Claim C2 witness: with the publisher failing, checking out bob's
basket leaves the basket table exactly as it was and reports a
non-success result. -/
theorem claim_C2_witness :
    (checkoutBasket ⟨false, true⟩ [⟨"bob", some [⟨"p1", "", 1, 50⟩]⟩]
        ⟨"bob", "B", "", "", "", ""⟩).2.1 = [⟨"bob", some [⟨"p1", "", 1, 50⟩]⟩]
    ∧ ∀ w, (checkoutBasket ⟨false, true⟩ [⟨"bob", some [⟨"p1", "", 1, 50⟩]⟩]
        ⟨"bob", "B", "", "", "", ""⟩).1 ≠ CheckoutResult.ok w :=
  ⟨((claim_C2 ⟨false, true⟩ [⟨"bob", some [⟨"p1", "", 1, 50⟩]⟩]
      ⟨"bob", "B", "", "", "", ""⟩).2 rfl).1,
   ((claim_C2 ⟨false, true⟩ [⟨"bob", some [⟨"p1", "", 1, 50⟩]⟩]
      ⟨"bob", "B", "", "", "", ""⟩).2 rfl).2.2⟩

/-- Claim C3: for a (non-empty) userName whose basket is absent, or whose
basket's item list is null or empty, checkout fails with the business
error, publishes nothing — the side-effect trace is empty, so the
publisher is never invoked — and leaves the basket table unchanged. -/
theorem claim_C3 (env : CheckoutEnv) (m : BasketMap) (req : CheckoutRequest)
    (h1 : req.userName ≠ "")
    (h2 : getBasket m req.userName = none
      ∨ ∃ b, getBasket m req.userName = some b ∧ (b.items = none ∨ b.items = some [])) :
    (checkoutBasket env m req).1 = CheckoutResult.emptyBasketError
    ∧ (checkoutBasket env m req).2.2 = []
    ∧ (checkoutBasket env m req).2.1 = m := by
  rcases h2 with h | ⟨b, hb, hi⟩
  · refine ⟨?_, ?_, ?_⟩ <;> simp [checkoutBasket, if_neg h1, h]
  · have hpp : prepareOrderPayload req b = none := by
      rcases hi with hi | hi <;> rw [prepareOrderPayload, hi]
    refine ⟨?_, ?_, ?_⟩ <;> simp [checkoutBasket, if_neg h1, hb, hpp]

/-- Claim C3 witness: carol has no basket; her checkout reports the
empty-basket business error, attempts no side effect at all, and changes
nothing. -/
theorem claim_C3_witness :
    (checkoutBasket ⟨true, true⟩ [] ⟨"carol", "C", "", "", "", ""⟩).1
      = CheckoutResult.emptyBasketError
    ∧ (checkoutBasket ⟨true, true⟩ [] ⟨"carol", "C", "", "", "", ""⟩).2.2 = []
    ∧ (checkoutBasket ⟨true, true⟩ [] ⟨"carol", "C", "", "", "", ""⟩).2.1 = [] :=
  claim_C3 ⟨true, true⟩ [] ⟨"carol", "C", "", "", "", ""⟩ (by decide) (Or.inl (by decide))

end BasketService
